import Mathlib

/-!
Shallow embedding of `src/03_Driver_Lesson/temp_led_plus_module.c`, a Linux
kernel module that samples the CPU temperature, classifies it into four bands
and drives three LEDs (GPIO 5 = RED, GPIO 6 = YELLOW, GPIO 26 = GREEN), plus a
loopback character device and a procfs status file.

Modelling conventions:
- C `int` temperature and threshold values are modelled as `Int` (the code only
  compares them, so no overflow arithmetic is involved).
- GPIO lines are a total map `Nat → Bool` keyed by pin number
  (`true` = asserted / high, `false` = deasserted / low).
- Time is in milliseconds; `jiffies + msecs_to_jiffies m` at a firing at time
  `now` is modelled as `now + m`, stored as the timer expiry.
- `thermal_zone_get_temp` is modelled by an `Option Int` argument: `some t`
  means the read succeeded with value `t`; `none` means it failed, in which
  case the global `temp` is left unchanged (the last-known-good policy the
  code relies on) and an error line is logged.
- `copy_to_user` / `copy_from_user` in the loopback device are modelled with
  the kernel semantics: the copy transfers a prefix and returns the number of
  bytes it could NOT copy (`uncopied`; 0 means complete success), so a
  faulting `copy_from_user` leaves the destination holding the pre-fault
  prefix of the source.  The `uncopied` count is an input of the model.  In
  `hello_read` the only fallible copy is a `copy_to_user` out of the driver,
  which cannot mutate driver state, so there a plain `Bool` fault flag
  suffices.
-/

/-- Global state of the LED / timer part of the driver: the cached temperature
`temp`, the three thresholds, the blink index `gpio_index`, the blink phase
`flag_timer`, the GPIO lines, both timer expiries, and the kernel log. -/
structure DriverState where
  temp : Int
  to_temp_green : Int
  to_temp_yellow : Int
  to_temp_red : Int
  gpio_index : Nat
  flag_timer : Bool
  gpio : Nat → Bool
  timer_blink_expires : Nat
  timer_thermal_expires : Nat
  log : List String

/-- `gpio_set_value(pin, v)`: point update of the GPIO map. -/
def gpio_set_value (s : DriverState) (pin : Nat) (v : Bool) : DriverState :=
  { s with gpio := fun p => if p = pin then v else s.gpio p }

/-- `led_array[i].gpio`: index 0 is `{GPIO_5, "LED_5"}` (RED), index 1 is
`{GPIO_6, "LED_6"}` (YELLOW), index 2 is `{GPIO_26, "LED_26"}` (GREEN).
Indices other than 0, 1, 2 never occur in the C code (out-of-bounds access
would be undefined behaviour); the default branch is arbitrary. -/
def led_array_gpio : Nat → Nat
  | 0 => 5
  | 1 => 6
  | 2 => 26
  | _ => 0

/-- `timer_blink_callback` (source lines 119-133): if `flag_timer` is false,
drive the LED at `gpio_index` low and re-arm the blink timer 10 ms from now;
otherwise drive it high and re-arm 1 ms from now; finally negate
`flag_timer`. -/
def timer_blink_callback (now : Nat) (s : DriverState) : DriverState :=
  let s :=
    if s.flag_timer = false then
      let s := gpio_set_value s (led_array_gpio s.gpio_index) false
      { s with timer_blink_expires := now + 10 }
    else
      let s := gpio_set_value s (led_array_gpio s.gpio_index) true
      { s with timer_blink_expires := now + 1 }
  { s with flag_timer := !s.flag_timer }

/-- `thermal_callback` (source lines 136-172): attempt a temperature read
(on failure log and keep the previous `temp`), then run the four-way strict
`<` chain against the thresholds, setting `gpio_index` and writing all three
GPIO lines, and finally re-arm the thermal timer `TIMEOUT` = 5000 ms from
now. -/
def thermal_callback (now : Nat) (read : Option Int) (s : DriverState) :
    DriverState :=
  let s :=
    match read with
    | some t => { s with temp := t }
    | none => { s with log := s.log ++ ["thermal_callback Failed to get temperature"] }
  let s :=
    if s.temp < s.to_temp_green then
      -- LED GREEN blinklicht
      let s := { s with gpio_index := 2 }
      let s := gpio_set_value s 5 false
      let s := gpio_set_value s 6 false
      gpio_set_value s 26 true
    else if s.temp < s.to_temp_yellow then
      -- LED YELLOW blinklicht
      let s := { s with gpio_index := 1 }
      let s := gpio_set_value s 5 false
      let s := gpio_set_value s 6 true
      gpio_set_value s 26 false
    else if s.temp < s.to_temp_red then
      -- LED RED blinklicht
      let s := { s with gpio_index := 0 }
      let s := gpio_set_value s 5 true
      let s := gpio_set_value s 6 false
      gpio_set_value s 26 false
    else
      -- LED RED blinklicht, YELLOW und GREEN licht
      let s := { s with gpio_index := 0 }
      let s := gpio_set_value s 5 true
      let s := gpio_set_value s 6 true
      gpio_set_value s 26 true
  { s with timer_thermal_expires := now + 5000 }

/-- The four temperature bands of the specification. -/
inductive Band
  | low
  | mid
  | high
  | critical
deriving DecidableEq

/-- The output pattern a band selects: which `led_array` index blinks, and the
value written to each of the three GPIO lines by `thermal_callback`. -/
structure OutputPattern where
  blink_index : Nat
  red : Bool
  yellow : Bool
  green : Bool
deriving DecidableEq

/-- The band classification implemented by the `if` chain of
`thermal_callback` (source lines 143-170), extracted as a pure function of the
temperature and the three thresholds: a strict sequential range test with
first match winning and `<` at every boundary, together with the GPIO values
each branch writes. -/
def classify (temp g y r : Int) : Band × OutputPattern :=
  if temp < g then (Band.low, ⟨2, false, false, true⟩)
  else if temp < y then (Band.mid, ⟨1, false, true, false⟩)
  else if temp < r then (Band.high, ⟨0, true, false, false⟩)
  else (Band.critical, ⟨0, true, true, true⟩)

/-- A driver state with the given temperature and thresholds, all LEDs high
(the boot state), blink index 0 and phase false. -/
def mkState (t g y r : Int) : DriverState :=
  { temp := t, to_temp_green := g, to_temp_yellow := y, to_temp_red := r,
    gpio_index := 0, flag_timer := false, gpio := fun _ => true,
    timer_blink_expires := 0, timer_thermal_expires := 0, log := [] }

/-! ## The loopback character device (`/dev/chrdev0`) -/

/-- `BUFFER_SIZE` of the loopback device. -/
def BUFFER_SIZE : Nat := 1024

/-- The globals of the loopback device: `data_size` (recorded length) and
`data_buffer` (a 1024-byte array, modelled as a list of bytes whose length is
the array size). -/
structure ChrdevState where
  data_size : Nat
  data_buffer : List Nat
deriving DecidableEq

/-- Overwrite the front of `old` with `new`, keeping the tail of `old`
(a `memcpy` of `new.length` bytes into the start of a fixed array). -/
def storeBytes (old new : List Nat) : List Nat :=
  new ++ old.drop new.length

/-- `dev_read` (source lines 193-213): clamp the requested length to
`data_size`, then `copy_to_user` out of the start of `data_buffer`; the copy
delivers a prefix and reports `uncopied` bytes not copied.  If `uncopied` is
nonzero, return `-EFAULT` with the globals untouched; otherwise reset
`data_size` to 0 and return the clamped length.  Result: new state, return
value, bytes delivered to the caller. -/
def dev_read (s : ChrdevState) (len : Nat) (uncopied : Nat) :
    ChrdevState × Int × List Nat :=
  let len := if len > s.data_size then s.data_size else len
  if uncopied ≠ 0 then (s, -14, s.data_buffer.take (len - uncopied))
  else ({ s with data_size := 0 }, Int.ofNat len, s.data_buffer.take len)

/-- `dev_write` (source lines 215-235): set `data_size` to the request length
clamped to `BUFFER_SIZE`, then `copy_from_user` that many bytes into
`data_buffer`; the copy fills the buffer front with the pre-fault prefix of
the caller bytes and reports `uncopied` bytes not copied.  If `uncopied` is
nonzero, return `-EFAULT` (note `data_size` has already been updated and the
copied prefix is already in the buffer); otherwise return `data_size`.
`ubuf` is the caller buffer; its length is the request length `len`. -/
def dev_write (s : ChrdevState) (ubuf : List Nat) (uncopied : Nat) :
    ChrdevState × Int :=
  let ds := if ubuf.length > BUFFER_SIZE then BUFFER_SIZE else ubuf.length
  let s := { s with data_size := ds }
  let s := { s with
    data_buffer := storeBytes s.data_buffer (ubuf.take (ds - uncopied)) }
  if uncopied ≠ 0 then (s, -14) else (s, Int.ofNat ds)

/-! ## The procfs status file (`hello_read`) -/

/-- `PROC_BUFFER_SIZE`. -/
def PROC_BUFFER_SIZE : Nat := 1024

/-- Decimal digit bytes of a natural number (fuel-based so that the kernel
can evaluate it); `natDecimalAux (n+1) n` yields the digits of `n`. -/
def natDecimalAux : Nat → Nat → List Nat
  | 0, _ => []
  | fuel + 1, n =>
      if n < 10 then [48 + n]
      else natDecimalAux fuel (n / 10) ++ [48 + n % 10]

/-- Decimal digit bytes of a natural number, most significant first. -/
def natDecimal (n : Nat) : List Nat := natDecimalAux (n + 1) n

/-- Bytes printed by C `%d` for an `Int`: a minus sign (byte 45) followed by
the decimal digits when negative. -/
def intDecimal : Int → List Nat
  | Int.ofNat n => natDecimal n
  | Int.negSucc m => 45 :: natDecimal (m + 1)

/-- The bytes `sprintf` produces for
`"CPU temperature = %d.%d Grad\n", temp / 1000, temp % 1000`:
the literal prefix `CPU temperature = ` (bytes 67,80,85,32,116,101,109,112,
101,114,97,116,117,114,101,32,61,32), the integer part (C division truncates
toward zero, `Int.tdiv` / `Int.tmod`), a dot (46), the remainder part, and
the literal ` Grad\n` (32,71,114,97,100,10). -/
def tempBytes (t : Int) : List Nat :=
  [67, 80, 85, 32, 116, 101, 109, 112, 101, 114, 97, 116, 117, 114, 101,
   32, 61, 32] ++ intDecimal (t.tdiv 1000) ++ [46]
    ++ intDecimal (t.tmod 1000) ++ [32, 71, 114, 97, 100, 10]

/-- Globals used by `hello_read`: the shared cached temperature `temp` and the
static `procfs_buffer` (1024 bytes). -/
structure ProcState where
  temp : Int
  procfs_buffer : List Nat
deriving DecidableEq

/-- `hello_read` (source lines 238-275): attempt a fresh temperature read at
query time (on failure keep the cached `temp`); set
`procfs_buffer_size := min count PROC_BUFFER_SIZE`; if `pos` is at or past
that size return 0 bytes; otherwise `sprintf` the temperature string (plus
its terminating NUL byte) into `procfs_buffer`, clip the size so that
`pos + size` stays within the buffer, `copy_to_user` `size` bytes starting at
offset `pos` (on fault return `-EFAULT`), advance `pos` and return `size`.
Result: new globals, new `pos`, return value, bytes delivered. -/
def hello_read (s : ProcState) (read : Option Int) (count pos : Nat)
    (fault : Bool) : ProcState × Nat × Int × List Nat :=
  let s :=
    match read with
    | some t => { s with temp := t }
    | none => s
  let size := min count PROC_BUFFER_SIZE
  if pos ≥ size then (s, pos, 0, [])
  else
    let s := { s with
      procfs_buffer := storeBytes s.procfs_buffer (tempBytes s.temp ++ [0]) }
    let size := if pos + size > PROC_BUFFER_SIZE then PROC_BUFFER_SIZE - pos
                else size
    if fault then (s, pos, -14, [])
    else (s, pos + size, Int.ofNat size, (s.procfs_buffer.drop pos).take size)

/-! ## Module initialization (`temp_led_init`, source lines 337-467)

We track which resources the init function has acquired and not yet released,
in acquisition order, together with its return value.  Failures of the
individual kernel calls are inputs.  The cleanup labels of the source
(`sysfs_err`, `device_err`, `class_err`, `cdev_err`) fall through into one
another, which the helper functions below mirror. -/

/-- The resources `temp_led_init` acquires, in order. -/
inductive Resource
  | chrdev_region   -- alloc_chrdev_region
  | cdev_added      -- cdev_add
  | dev_class       -- class_create
  | dev_node        -- device_create
  | kobj            -- kobject_create_and_add (result never checked)
  | sysfs_green     -- sysfs_create_file to_temp_green
  | sysfs_yellow    -- sysfs_create_file to_temp_yellow
  | sysfs_red       -- sysfs_create_file to_temp_red
  | proc_dir        -- proc_mkdir
  | proc_file_ent   -- proc_create
  | gpio_leds       -- gpio_request_array
deriving DecidableEq

/-- Which of the fallible calls inside `temp_led_init` fail. -/
structure InitFailures where
  alloc_chrdev_fail : Bool
  cdev_add_fail : Bool
  class_create_fail : Bool
  device_create_fail : Bool
  sysfs_green_fail : Bool
  sysfs_yellow_fail : Bool
  sysfs_red_fail : Bool
  proc_mkdir_fail : Bool
  proc_create_fail : Bool
  gpio_request_fail : Bool
  thermal_zone_fail : Bool
deriving DecidableEq

/-- Label `cdev_err`: `cdev_del(&chrdev_cdev)` (a no-op on the held set when
the cdev was never added). -/
def cdev_err (h : List Resource) : List Resource :=
  h.erase Resource.cdev_added

/-- Label `class_err`: `class_destroy(pclass)`, then falls through to
`cdev_err`. -/
def class_err (h : List Resource) : List Resource :=
  cdev_err (h.erase Resource.dev_class)

/-- Label `device_err`: `unregister_chrdev_region(dev, 1)`, then falls through
to `class_err`.  Note the source never calls `device_destroy` here, so an
already created device node is not released on this path. -/
def device_err (h : List Resource) : List Resource :=
  class_err (h.erase Resource.chrdev_region)

/-- Label `sysfs_err`: `kobject_put(chrdev_kobj)` releases the kobject and
with it the sysfs attribute files created under it; the three
`sysfs_remove_file(kernel_kobj, ...)` calls target `kernel_kobj`, not
`chrdev_kobj`, and do not affect anything this module holds.  Falls through
to `device_err`. -/
def sysfs_err (h : List Resource) : List Resource :=
  device_err ((((h.erase Resource.kobj).erase Resource.sysfs_green).erase
    Resource.sysfs_yellow).erase Resource.sysfs_red)

/-- `temp_led_init` (source lines 337-467): the sequence of acquisitions with
the error handling of the source, returning the C return value and the list
of resources still held when it returns.  `alloc_chrdev_region` returns a
negative errno on failure, modelled as `-ENOMEM` = -12; `-EINVAL` = -22. -/
def temp_led_init (f : InitFailures) : Int × List Resource :=
  if f.alloc_chrdev_fail then (-12, [])
  else
  let h := [Resource.chrdev_region]
  if f.cdev_add_fail then (0, cdev_err h)   -- goto cdev_err; return 0
  else
  let h := h ++ [Resource.cdev_added]
  if f.class_create_fail then (0, class_err h)   -- goto class_err; return 0
  else
  let h := h ++ [Resource.dev_class]
  if f.device_create_fail then (0, device_err h)   -- goto device_err; return 0
  else
  let h := h ++ [Resource.dev_node, Resource.kobj]
  if f.sysfs_green_fail then (0, sysfs_err h)   -- goto sysfs_err; return 0
  else
  let h := h ++ [Resource.sysfs_green]
  if f.sysfs_yellow_fail then (0, sysfs_err h)
  else
  let h := h ++ [Resource.sysfs_yellow]
  if f.sysfs_red_fail then (0, sysfs_err h)
  else
  let h := h ++ [Resource.sysfs_red]
  if f.proc_mkdir_fail then (-12, h)   -- return -ENOMEM, no cleanup
  else
  let h := h ++ [Resource.proc_dir]
  if f.proc_create_fail then (-12, h.erase Resource.proc_dir)
    -- proc_remove(proc_folder); return -ENOMEM
  else
  let h := h ++ [Resource.proc_file_ent]
  if f.gpio_request_fail then (-1, h)   -- return -1, no cleanup
  else
  let h := h ++ [Resource.gpio_leds]
  if f.thermal_zone_fail then (-22, h)   -- return -EINVAL, no cleanup
  else (0, h)

/-- An `InitFailures` record with every call succeeding. -/
def noFailures : InitFailures :=
  ⟨false, false, false, false, false, false, false, false, false, false,
   false⟩

/-! ## Claims -/

/-- Claim C1, counterexample.  The claim asserts that for EVERY thresholds
triple, `temp = green_ceiling` classifies as MID and every
`temp ≥ red_ceiling` classifies as CRITICAL.  Both fail on non-monotonic
triples: with thresholds (40000, 30000, 75000) and `temp = 40000` (equal to
the green ceiling) the chain yields HIGH, not MID, and `thermal_callback`
selects RED (index 0) with YELLOW driven low; with thresholds
(100000, 60000, 50000) and `temp = 50000 ≥ red_ceiling` the chain yields LOW,
not CRITICAL. -/
theorem c1_boundary_counterexample :
    (classify 40000 40000 30000 75000).1 = Band.high
  ∧ ¬ (classify 40000 40000 30000 75000).1 = Band.mid
  ∧ (thermal_callback 0 (some 40000) (mkState 0 40000 30000 75000)).gpio_index
      = 0
  ∧ (thermal_callback 0 (some 40000) (mkState 0 40000 30000 75000)).gpio 6
      = false
  ∧ (classify 50000 100000 60000 50000).1 = Band.low
  ∧ ¬ (classify 50000 100000 60000 50000).1 = Band.critical := by
  decide

/-- Claim C1 (amended): classification is a pure, total, deterministic
function of the temperature and thresholds, a strict sequential range test
with first match winning and strict `<` at every boundary: below the green
ceiling LOW (GREEN blinking, RED and YELLOW off); else below the yellow
ceiling MID (YELLOW blinking, others off); else below the red ceiling HIGH
(RED blinking, others off); else CRITICAL (RED blinking, YELLOW and GREEN
on).  `thermal_callback` drives the GPIO lines and blink index exactly
according to this classification.  The result is well-defined for
non-monotonic triples; the boundary facts hold under the intended ordering:
when `green_ceiling < yellow_ceiling`, `temp = green_ceiling` classifies as
MID (not LOW), and when both lower ceilings are at most the red ceiling,
every `temp ≥ red_ceiling` classifies as CRITICAL. -/
theorem c1_classification (now : Nat) (t : Int) (s : DriverState) :
    (classify t s.to_temp_green s.to_temp_yellow s.to_temp_red
        = (Band.low, ⟨2, false, false, true⟩) ↔ t < s.to_temp_green)
  ∧ (classify t s.to_temp_green s.to_temp_yellow s.to_temp_red
        = (Band.mid, ⟨1, false, true, false⟩)
      ↔ (¬ t < s.to_temp_green ∧ t < s.to_temp_yellow))
  ∧ (classify t s.to_temp_green s.to_temp_yellow s.to_temp_red
        = (Band.high, ⟨0, true, false, false⟩)
      ↔ (¬ t < s.to_temp_green ∧ ¬ t < s.to_temp_yellow
          ∧ t < s.to_temp_red))
  ∧ (classify t s.to_temp_green s.to_temp_yellow s.to_temp_red
        = (Band.critical, ⟨0, true, true, true⟩)
      ↔ (¬ t < s.to_temp_green ∧ ¬ t < s.to_temp_yellow
          ∧ ¬ t < s.to_temp_red))
  ∧ (thermal_callback now (some t) s).gpio_index
      = (classify t s.to_temp_green s.to_temp_yellow
          s.to_temp_red).2.blink_index
  ∧ (thermal_callback now (some t) s).gpio 5
      = (classify t s.to_temp_green s.to_temp_yellow s.to_temp_red).2.red
  ∧ (thermal_callback now (some t) s).gpio 6
      = (classify t s.to_temp_green s.to_temp_yellow s.to_temp_red).2.yellow
  ∧ (thermal_callback now (some t) s).gpio 26
      = (classify t s.to_temp_green s.to_temp_yellow s.to_temp_red).2.green
  ∧ (s.to_temp_green < s.to_temp_yellow →
      classify s.to_temp_green s.to_temp_green s.to_temp_yellow s.to_temp_red
        = (Band.mid, ⟨1, false, true, false⟩))
  ∧ (s.to_temp_green ≤ s.to_temp_red → s.to_temp_yellow ≤ s.to_temp_red →
      s.to_temp_red ≤ t →
      classify t s.to_temp_green s.to_temp_yellow s.to_temp_red
        = (Band.critical, ⟨0, true, true, true⟩)) := by
  simp only [thermal_callback, classify, gpio_set_value]
  split_ifs <;> simp_all <;> omega

/-- Claim C1, witness: at default thresholds (40000, 60000, 75000) the
boundary facts are realized at `temp = 40000` (MID) and `temp = 90000`
(CRITICAL). -/
theorem c1_classification_witness :
    classify 40000 40000 60000 75000 = (Band.mid, ⟨1, false, true, false⟩)
  ∧ classify 90000 40000 60000 75000
      = (Band.critical, ⟨0, true, true, true⟩) :=
  ⟨(c1_classification 0 90000
      (mkState 0 40000 60000 75000)).2.2.2.2.2.2.2.2.1 (by decide),
   (c1_classification 0 90000
      (mkState 0 40000 60000 75000)).2.2.2.2.2.2.2.2.2 (by decide) (by decide)
      (by decide)⟩

/-- Claim C2: on every firing of the blink callback exactly one of two
branches runs, selected by the phase flag, and the flag is negated afterward
(so consecutive firings strictly alternate); in the `flag_timer = false`
phase the output at the current active index is deasserted and the timer is
re-armed 10 ms after the firing; in the `flag_timer = true` phase it is
asserted and the timer is re-armed 1 ms after the firing.  No other output
line is touched, and each firing acts on whichever active index is current at
that firing (the statement reads the pre-state index). -/
theorem c2_blink_firing (now : Nat) (s : DriverState) :
    (timer_blink_callback now s).flag_timer = !s.flag_timer
  ∧ (s.flag_timer = false →
      (timer_blink_callback now s).gpio (led_array_gpio s.gpio_index) = false
    ∧ (timer_blink_callback now s).timer_blink_expires = now + 10)
  ∧ (s.flag_timer = true →
      (timer_blink_callback now s).gpio (led_array_gpio s.gpio_index) = true
    ∧ (timer_blink_callback now s).timer_blink_expires = now + 1)
  ∧ (∀ p, ¬ p = led_array_gpio s.gpio_index →
      (timer_blink_callback now s).gpio p = s.gpio p) := by
  simp only [timer_blink_callback, gpio_set_value]
  split_ifs <;> simp_all

/-- Claim C2, witness: from the boot state (flag false, index 0) the firing
at time 7 deasserts GPIO 5, re-arms for time 17, flips the flag, and leaves
GPIO 6 untouched. -/
theorem c2_blink_firing_witness :
    (timer_blink_callback 7 (mkState 0 40000 60000 75000)).flag_timer = true
  ∧ (timer_blink_callback 7 (mkState 0 40000 60000 75000)).gpio 5 = false
  ∧ (timer_blink_callback 7
      (mkState 0 40000 60000 75000)).timer_blink_expires = 17
  ∧ (timer_blink_callback 7 (mkState 0 40000 60000 75000)).gpio 6 = true := by
  have h := c2_blink_firing 7 (mkState 0 40000 60000 75000)
  exact ⟨h.1, (h.2.1 rfl).1, (h.2.1 rfl).2, h.2.2.2 6 (by decide)⟩

/-- Claim C3: on every firing of the thermal callback with a successful read,
the active index is set to the blinking output of the resulting pattern
(GREEN = `led_array` index 2 for LOW, YELLOW = 1 for MID, RED = 0 for both
HIGH and CRITICAL, so it is always one of 0, 1, 2), the non-blinking outputs
of the pattern are written unconditionally (the post-state lines equal the
pattern values for every pre-state), the thermal timer is re-armed 5000 ms
after the firing, and the blink callback never writes the active index (the
thermal callback is its sole writer). -/
theorem c3_thermal_active_index (now : Nat) (t : Int) (s : DriverState) :
    ((thermal_callback now (some t) s).gpio_index = 2
      ∨ (thermal_callback now (some t) s).gpio_index = 1
      ∨ (thermal_callback now (some t) s).gpio_index = 0)
  ∧ (t < s.to_temp_green → (thermal_callback now (some t) s).gpio_index = 2)
  ∧ (¬ t < s.to_temp_green → t < s.to_temp_yellow →
      (thermal_callback now (some t) s).gpio_index = 1)
  ∧ (¬ t < s.to_temp_green → ¬ t < s.to_temp_yellow →
      (thermal_callback now (some t) s).gpio_index = 0)
  ∧ (thermal_callback now (some t) s).gpio 5
      = (classify t s.to_temp_green s.to_temp_yellow s.to_temp_red).2.red
  ∧ (thermal_callback now (some t) s).gpio 6
      = (classify t s.to_temp_green s.to_temp_yellow s.to_temp_red).2.yellow
  ∧ (thermal_callback now (some t) s).gpio 26
      = (classify t s.to_temp_green s.to_temp_yellow s.to_temp_red).2.green
  ∧ (thermal_callback now (some t) s).timer_thermal_expires = now + 5000
  ∧ (timer_blink_callback now s).gpio_index = s.gpio_index := by
  simp only [thermal_callback, classify, gpio_set_value,
    timer_blink_callback]
  split_ifs <;> simp_all

/-- Claim C3, witness: at default thresholds and temperature 30000 the active
index becomes 2 (GREEN) with RED and YELLOW deasserted, the thermal timer is
re-armed for time 5003, and a blink firing leaves the index at 0. -/
theorem c3_thermal_active_index_witness :
    (thermal_callback 3 (some 30000)
        (mkState 0 40000 60000 75000)).gpio_index = 2
  ∧ (thermal_callback 3 (some 30000) (mkState 0 40000 60000 75000)).gpio 5
      = false
  ∧ (thermal_callback 3 (some 30000)
        (mkState 0 40000 60000 75000)).timer_thermal_expires = 3 + 5000
  ∧ (timer_blink_callback 3 (mkState 0 40000 60000 75000)).gpio_index = 0 := by
  have h := c3_thermal_active_index 3 30000 (mkState 0 40000 60000 75000)
  exact ⟨h.2.1 (by decide), h.2.2.2.2.1, h.2.2.2.2.2.2.2.1, h.2.2.2.2.2.2.2.2⟩

/-- Claim C4, counterexample.  The claim asserts that when the temperature
read fails the physical outputs are not updated for that cycle.  They are:
starting from a state with default thresholds, stale temperature 30000 and
GPIO 26 (GREEN) currently low (as a blink firing leaves it), a thermal
firing whose read fails still executes the classification chain and drives
GPIO 26 high again, changing a physical output. -/
theorem c4_failed_read_counterexample :
    (gpio_set_value (mkState 30000 40000 60000 75000) 26 false).gpio 26
      = false
  ∧ (thermal_callback 0 none
      (gpio_set_value (mkState 30000 40000 60000 75000) 26 false)).gpio 26
      = true := by
  decide

/-- Claim C4 (amended): when the temperature read fails during a thermal
sample cycle, the failure is logged, and the physical outputs ARE still
written for that cycle: all three GPIO lines are set, unconditionally, to the
pattern classified from the retained previous temperature (so with unchanged
thresholds the previous pattern is re-applied rather than left alone). -/
theorem c4_failed_read_logs_and_writes (now : Nat) (s : DriverState) :
    (thermal_callback now none s).log
      = s.log ++ ["thermal_callback Failed to get temperature"]
  ∧ (thermal_callback now none s).gpio 5
      = (classify s.temp s.to_temp_green s.to_temp_yellow s.to_temp_red).2.red
  ∧ (thermal_callback now none s).gpio 6
      = (classify s.temp s.to_temp_green s.to_temp_yellow
          s.to_temp_red).2.yellow
  ∧ (thermal_callback now none s).gpio 26
      = (classify s.temp s.to_temp_green s.to_temp_yellow
          s.to_temp_red).2.green := by
  simp only [thermal_callback, classify, gpio_set_value]
  split_ifs <;> simp_all

/-- Claim C5: when the temperature read fails, the stored temperature is left
unchanged from the previous cycle (never reset to zero), and the cycle still
proceeds: it classifies the stale value (the active index becomes the blink
index of the pattern classified from the old temperature) and re-arms the
thermal timer 5000 ms after the firing — the cycle is not skipped. -/
theorem c5_failed_read_keeps_temp (now : Nat) (s : DriverState) :
    (thermal_callback now none s).temp = s.temp
  ∧ (thermal_callback now none s).gpio_index
      = (classify s.temp s.to_temp_green s.to_temp_yellow
          s.to_temp_red).2.blink_index
  ∧ (thermal_callback now none s).timer_thermal_expires = now + 5000 := by
  simp only [thermal_callback, classify, gpio_set_value]
  split_ifs <;> simp_all

/-- Closed form of a successful `dev_read`: the recorded length is reset to
0, the buffer is untouched, and the clamped length and the corresponding
buffer front are returned. -/
theorem dev_read_eq (s : ChrdevState) (len : Nat) :
    dev_read s len 0
      = (⟨0, s.data_buffer⟩, Int.ofNat (min len s.data_size),
         s.data_buffer.take (min len s.data_size)) := by
  unfold dev_read
  rw [if_neg (show ¬ ((0 : Nat) ≠ 0) by omega)]
  split_ifs with h
  · have hm : min len s.data_size = s.data_size := by omega
    simp [hm]
  · have hm : min len s.data_size = len := by omega
    simp [hm]

/-- Closed form of a successful `dev_write`: the recorded length becomes the
request length clamped to `BUFFER_SIZE`, that many bytes overwrite the front
of the buffer, and the clamped length is returned. -/
theorem dev_write_eq (s : ChrdevState) (ubuf : List Nat) :
    dev_write s ubuf 0
      = (⟨min ubuf.length BUFFER_SIZE,
          ubuf.take BUFFER_SIZE
            ++ s.data_buffer.drop (min ubuf.length BUFFER_SIZE)⟩,
         Int.ofNat (min ubuf.length BUFFER_SIZE)) := by
  unfold dev_write storeBytes
  rw [if_neg (show ¬ ((0 : Nat) ≠ 0) by omega)]
  split_ifs with h
  · have hm : min ubuf.length BUFFER_SIZE = BUFFER_SIZE := by omega
    have hm2 : min BUFFER_SIZE ubuf.length = BUFFER_SIZE := by omega
    simp [hm, hm2]
  · have hm : min ubuf.length BUFFER_SIZE = ubuf.length := by omega
    have ht : ubuf.take BUFFER_SIZE = ubuf :=
      List.take_of_length_le (by omega)
    simp [hm, ht]

/-- Claim C6: a loopback write of `n` bytes stores `min n 1024` bytes
(silently truncating beyond capacity) and records that length (also returning
it); a subsequent read whose requested length is at least the recorded length
returns exactly the stored bytes; and a second read before any further write
returns zero bytes. -/
theorem c6_loopback_roundtrip (s : ChrdevState) (ubuf : List Nat) (n m : Nat)
    (hn : min ubuf.length BUFFER_SIZE ≤ n) :
    (dev_write s ubuf 0).1.data_size = min ubuf.length BUFFER_SIZE
  ∧ (dev_write s ubuf 0).2 = Int.ofNat (min ubuf.length BUFFER_SIZE)
  ∧ (dev_read (dev_write s ubuf 0).1 n 0).2.2 = ubuf.take BUFFER_SIZE
  ∧ (dev_read (dev_write s ubuf 0).1 n 0).2.1
      = Int.ofNat (min ubuf.length BUFFER_SIZE)
  ∧ (dev_read (dev_read (dev_write s ubuf 0).1 n 0).1 m 0).2.1 = 0
  ∧ (dev_read (dev_read (dev_write s ubuf 0).1 n 0).1 m 0).2.2
      = [] := by
  have hmin : min n (min ubuf.length BUFFER_SIZE)
      = min ubuf.length BUFFER_SIZE := by omega
  have hlen : (ubuf.take BUFFER_SIZE).length = min ubuf.length BUFFER_SIZE :=
    by simp [Nat.min_comm]
  simp [dev_write_eq, dev_read_eq, hmin, List.take_left' hlen]

/-- Claim C6, witness: writing the three bytes `abc` (97, 98, 99) into an
empty device and reading with a large request returns exactly those bytes,
and a second read returns zero bytes. -/
theorem c6_loopback_roundtrip_witness :
    (dev_write ⟨0, List.replicate 1024 0⟩ [97, 98, 99] 0).1.data_size
      = min ([97, 98, 99] : List Nat).length BUFFER_SIZE
  ∧ (dev_write ⟨0, List.replicate 1024 0⟩ [97, 98, 99] 0).2
      = Int.ofNat (min ([97, 98, 99] : List Nat).length BUFFER_SIZE)
  ∧ (dev_read (dev_write ⟨0, List.replicate 1024 0⟩ [97, 98, 99] 0).1
        100 0).2.2 = ([97, 98, 99] : List Nat).take BUFFER_SIZE
  ∧ (dev_read (dev_write ⟨0, List.replicate 1024 0⟩ [97, 98, 99] 0).1
        100 0).2.1
      = Int.ofNat (min ([97, 98, 99] : List Nat).length BUFFER_SIZE)
  ∧ (dev_read (dev_read
        (dev_write ⟨0, List.replicate 1024 0⟩ [97, 98, 99] 0).1
        100 0).1 50 0).2.1 = 0
  ∧ (dev_read (dev_read
        (dev_write ⟨0, List.replicate 1024 0⟩ [97, 98, 99] 0).1
        100 0).1 50 0).2.2 = [] :=
  c6_loopback_roundtrip ⟨0, List.replicate 1024 0⟩ [97, 98, 99] 100 50
    (by decide)

/-- Claim C7, counterexample.  The claim asserts that a failed copy during a
loopback write retains no partial state.  `dev_write` stores the clamped
request length into `data_size` BEFORE attempting the copy, and the copy
fills the buffer front up to the fault point, so a 5-byte write into a
device whose recorded length was 3 that faults with 2 bytes uncopied returns
`-EFAULT` with the recorded length changed to 5 and the first 3 caller bytes
already stored. -/
theorem c7_write_fault_counterexample :
    (dev_write ⟨3, List.replicate 1024 0⟩ [1, 2, 3, 4, 5] 2).2 = -14
  ∧ ¬ (dev_write ⟨3, List.replicate 1024 0⟩ [1, 2, 3, 4, 5] 2).1.data_size
      = 3
  ∧ (dev_write ⟨3, List.replicate 1024 0⟩
      [1, 2, 3, 4, 5] 2).1.data_buffer.take 4 = [1, 2, 3, 0] := by
  decide

/-- Closed form of a faulting `dev_read` (`uncopied ≠ 0`): `-EFAULT` is
returned and the device globals are untouched (the partial transfer reaches
only the caller buffer). -/
theorem dev_read_fault_eq (s : ChrdevState) (len u : Nat) (hu : u ≠ 0) :
    dev_read s len u
      = (s, -14, s.data_buffer.take (min len s.data_size - u)) := by
  unfold dev_read
  have hds : (if len > s.data_size then s.data_size else len)
      = min len s.data_size := by
    split_ifs <;> omega
  rw [hds, if_pos hu]

/-- Closed form of a faulting `dev_write` (`uncopied ≠ 0`): `-EFAULT` is
returned, but the recorded length has already become the clamped request
length and the buffer front already holds the copied prefix of the caller
bytes. -/
theorem dev_write_fault_eq (s : ChrdevState) (ubuf : List Nat) (u : Nat)
    (hu : u ≠ 0) :
    dev_write s ubuf u
      = (⟨min ubuf.length BUFFER_SIZE,
          ubuf.take (min ubuf.length BUFFER_SIZE - u)
            ++ s.data_buffer.drop (min ubuf.length BUFFER_SIZE - u)⟩,
         -14) := by
  unfold dev_write storeBytes
  have hds : (if ubuf.length > BUFFER_SIZE then BUFFER_SIZE else ubuf.length)
      = min ubuf.length BUFFER_SIZE := by
    split_ifs <;> omega
  rw [hds, if_pos hu]
  have hlen : (ubuf.take (min ubuf.length BUFFER_SIZE - u)).length
      = min ubuf.length BUFFER_SIZE - u := by
    simp [List.length_take]
  rw [hlen]

/-- Claim C7 (amended): a faulting copy in a loopback read returns a transfer
error (`-EFAULT`) and the device state (stored bytes and recorded length) is
unchanged; a faulting copy in a loopback write returns the same transfer
error, but partial state IS retained: the recorded length has already been
overwritten with the clamped request length `min n 1024`, and the buffer
front already holds the prefix of the caller bytes copied before the fault,
with the remainder of the stored bytes unchanged. -/
theorem c7_fault_state (s : ChrdevState) (len : Nat) (ubuf : List Nat)
    (u : Nat) (hu : u ≠ 0) :
    (dev_read s len u).1 = s
  ∧ (dev_read s len u).2.1 = -14
  ∧ (dev_write s ubuf u).2 = -14
  ∧ (dev_write s ubuf u).1.data_size = min ubuf.length BUFFER_SIZE
  ∧ (dev_write s ubuf u).1.data_buffer
      = ubuf.take (min ubuf.length BUFFER_SIZE - u)
        ++ s.data_buffer.drop (min ubuf.length BUFFER_SIZE - u) := by
  rw [dev_read_fault_eq s len u hu, dev_write_fault_eq s ubuf u hu]
  exact ⟨rfl, rfl, rfl, rfl, rfl⟩

/-- Claim C7, witness: a 5-byte write with 2 bytes uncopied into a device
with recorded length 3 returns `-EFAULT` with the recorded length set to 5
and the 3-byte prefix stored; a faulting 2-byte read leaves the device
unchanged. -/
theorem c7_fault_state_witness :
    (dev_read ⟨3, List.replicate 1024 0⟩ 2 1).1
      = (⟨3, List.replicate 1024 0⟩ : ChrdevState)
  ∧ (dev_read ⟨3, List.replicate 1024 0⟩ 2 1).2.1 = -14
  ∧ (dev_write ⟨3, List.replicate 1024 0⟩ [1, 2, 3, 4, 5] 1).2 = -14
  ∧ (dev_write ⟨3, List.replicate 1024 0⟩ [1, 2, 3, 4, 5] 1).1.data_size
      = min ([1, 2, 3, 4, 5] : List Nat).length BUFFER_SIZE
  ∧ (dev_write ⟨3, List.replicate 1024 0⟩ [1, 2, 3, 4, 5] 1).1.data_buffer
      = ([1, 2, 3, 4, 5] : List Nat).take
          (min ([1, 2, 3, 4, 5] : List Nat).length BUFFER_SIZE - 1)
        ++ (List.replicate 1024 0).drop
          (min ([1, 2, 3, 4, 5] : List Nat).length BUFFER_SIZE - 1) :=
  c7_fault_state ⟨3, List.replicate 1024 0⟩ 2 [1, 2, 3, 4, 5] 1 (by decide)

/-- Claim C10: every successful read of the loopback device resets the
recorded length to zero regardless of how many bytes it returned; it returns
only the requested front of the stored bytes (the buffer front of length
`min len data_size`, which for a zero-length request is empty), and the next
read then returns zero bytes — the unread remainder is silently discarded. -/
theorem c10_read_discards (s : ChrdevState) (len m : Nat) :
    (dev_read s len 0).1.data_size = 0
  ∧ (dev_read s len 0).2.2 = s.data_buffer.take (min len s.data_size)
  ∧ (dev_read s len 0).2.1 = Int.ofNat (min len s.data_size)
  ∧ (dev_read s 0 0).2.2 = []
  ∧ (dev_read (dev_read s len 0).1 m 0).2.1 = 0
  ∧ (dev_read (dev_read s len 0).1 m 0).2.2 = [] := by
  simp only [dev_read_eq]
  exact ⟨trivial, trivial, trivial, by simp, by simp, by simp⟩

/-- Claim C8 (code bug): the claim says a failure to locate the thermal zone
or to acquire the output lines makes `temp_led_init` return an error code AND
release every resource already acquired.  The error code part holds (the
returns are -1 and -EINVAL), but neither failure path performs any cleanup:
when `gpio_request_array` fails, the function returns -1 with the chrdev
region, cdev, device class, device node, kobject, all three sysfs files and
both proc entries still held; when `thermal_zone_get_zone_by_name` fails it
returns -EINVAL holding all of those plus the GPIO lines.  (A successful run
returns 0 holding everything, as expected.) -/
theorem c8_init_failure_leaks :
    (temp_led_init { noFailures with gpio_request_fail := true }).1 = -1
  ∧ (temp_led_init { noFailures with gpio_request_fail := true }).2
      = [Resource.chrdev_region, Resource.cdev_added, Resource.dev_class,
         Resource.dev_node, Resource.kobj, Resource.sysfs_green,
         Resource.sysfs_yellow, Resource.sysfs_red, Resource.proc_dir,
         Resource.proc_file_ent]
  ∧ (temp_led_init { noFailures with thermal_zone_fail := true }).1 = -22
  ∧ (temp_led_init { noFailures with thermal_zone_fail := true }).2
      = [Resource.chrdev_region, Resource.cdev_added, Resource.dev_class,
         Resource.dev_node, Resource.kobj, Resource.sysfs_green,
         Resource.sysfs_yellow, Resource.sysfs_red, Resource.proc_dir,
         Resource.proc_file_ent, Resource.gpio_leds]
  ∧ (temp_led_init noFailures).1 = 0 := by
  decide

/-- Claim C9, counterexample.  The claim says every status query returns the
string `CPU temperature = {int}.{frac} Grad\n`.  A query with a large request
(count 2000) at position 0 and fresh reading 45231 returns 1024 bytes — the
30-byte formatted string followed by its NUL terminator and the residual
buffer bytes — not the string itself. -/
theorem c9_status_counterexample :
    (hello_read ⟨0, List.replicate 1024 0⟩ (some 45231) 2000 0 false).2.2.1
      = 1024
  ∧ ¬ (hello_read ⟨0, List.replicate 1024 0⟩ (some 45231) 2000 0 false).2.2.2
      = tempBytes 45231
  ∧ (tempBytes 45231).length = 30 := by
  decide

/-- Claim C9 (amended): every status query attempts a fresh temperature read
at query time and formats `CPU temperature = {int}.{frac} Grad\n` with
`int = temp/1000` and `frac = temp%1000` (C truncating division) from the
fresh value into the proc buffer; a query at position 0 whose request is
large enough to hold the string returns `min count 1024` bytes whose front is
exactly that string (the rest being the NUL terminator and residual buffer
bytes), rather than exactly the string. -/
theorem c9_status_format (s : ProcState) (t : Int) (count : Nat)
    (hc : (tempBytes t).length ≤ min count PROC_BUFFER_SIZE) :
    (hello_read s (some t) count 0 false).1.temp = t
  ∧ (hello_read s (some t) count 0 false).1.procfs_buffer
      = tempBytes t ++ [0]
        ++ s.procfs_buffer.drop ((tempBytes t).length + 1)
  ∧ (hello_read s (some t) count 0 false).2.1 = min count PROC_BUFFER_SIZE
  ∧ (hello_read s (some t) count 0 false).2.2.1
      = Int.ofNat (min count PROC_BUFFER_SIZE)
  ∧ (hello_read s (some t) count 0 false).2.2.2.take (tempBytes t).length
      = tempBytes t := by
  have hlen0 : 0 < (tempBytes t).length := by simp [tempBytes]
  have hsize : 0 < min count PROC_BUFFER_SIZE := lt_of_lt_of_le hlen0 hc
  have h2 : ¬ (0 ≥ min count PROC_BUFFER_SIZE) := by omega
  have h3 : ¬ (0 + min count PROC_BUFFER_SIZE > PROC_BUFFER_SIZE) := by omega
  unfold hello_read storeBytes
  simp only [Bool.false_eq_true, if_false, if_neg h2, if_neg h3]
  refine ⟨by simp, by simp [List.append_assoc], by simp, by simp, ?_⟩
  rw [List.drop_zero, List.take_take, Nat.min_eq_left hc,
    List.append_assoc, List.take_left' rfl]

/-- Claim C9, witness: a query with request 2000 at position 0 and fresh
reading 45231 stores 45231, formats the 30-byte string into the buffer,
returns `min 2000 1024` bytes, and the front of the returned bytes is exactly
the formatted string. -/
theorem c9_status_format_witness :
    (hello_read ⟨0, List.replicate 1024 0⟩ (some 45231) 2000 0 false).1.temp
      = 45231
  ∧ (hello_read ⟨0, List.replicate 1024 0⟩
        (some 45231) 2000 0 false).1.procfs_buffer
      = tempBytes 45231 ++ [0]
        ++ (List.replicate 1024 0).drop ((tempBytes 45231).length + 1)
  ∧ (hello_read ⟨0, List.replicate 1024 0⟩ (some 45231) 2000 0 false).2.1
      = min 2000 PROC_BUFFER_SIZE
  ∧ (hello_read ⟨0, List.replicate 1024 0⟩ (some 45231) 2000 0 false).2.2.1
      = Int.ofNat (min 2000 PROC_BUFFER_SIZE)
  ∧ (hello_read ⟨0, List.replicate 1024 0⟩
        (some 45231) 2000 0 false).2.2.2.take (tempBytes 45231).length
      = tempBytes 45231 :=
  c9_status_format ⟨0, List.replicate 1024 0⟩ 45231 2000 (by decide)
